import Mathlib

/-!
Verification of the pomodoro timer core from `src/main.rs`.

The program keeps its whole state in five reactive signals inside the
`PomodoroTimer` component: `mode`, `seconds_remaining`, `is_active`,
`sessions_completed` and `interval` (an `Option<Interval>` scheduler
registration handle).  The five mutators are the closures `start_timer`,
`pause_timer`, `reset_timer`, `change_mode` and the interval's
`timer_callback`.  We embed the signals as a record and each closure as a
function on that record.  The `Option<Interval>` handle is embedded as the
number of live scheduler registrations (`Signal::set` replaces the stored
handle, dropping — and thereby cancelling — the previous `Interval`, so a
`set` to `None` yields 0 live registrations and a `set` to a fresh
`Interval` yields 1).
-/

namespace Pomodoro

/-- The `TimerMode` enum from the source: `Work | ShortBreak | LongBreak`. -/
inductive TimerMode where
  | Work
  | ShortBreak
  | LongBreak
deriving DecidableEq, Repr

/-- The `TimerSettings` struct: four integer configuration fields. -/
structure TimerSettings where
  work_minutes : Nat
  short_break_minutes : Nat
  long_break_minutes : Nat
  sessions_before_long_break : Nat
deriving DecidableEq, Repr

/-- `TimerSettings::default()`: 25 / 5 / 15 / 4.  The component always
constructs its settings signal with this value. -/
def defaultSettings : TimerSettings :=
  { work_minutes := 25
    short_break_minutes := 5
    long_break_minutes := 15
    sessions_before_long_break := 4 }

/-- The five state signals of the `PomodoroTimer` component.  `interval`
counts the live scheduler registrations held by the `interval` signal:
`0` for `None`, `1` for `Some(handle)`. -/
structure TimerState where
  mode : TimerMode
  seconds_remaining : Nat
  is_active : Bool
  sessions_completed : Nat
  interval : Nat
deriving DecidableEq, Repr

/-- The configured minutes for a mode — the discrimination that
`reset_timer` / `change_mode` / the completion path perform with an
inline `match` on the mode. -/
def duration (settings : TimerSettings) : TimerMode → Nat
  | TimerMode.Work => settings.work_minutes
  | TimerMode.ShortBreak => settings.short_break_minutes
  | TimerMode.LongBreak => settings.long_break_minutes

/-- The closure handed to `Interval::new` (src/main.rs lines 84–122):
if at most one second remains, zero the clock, stop, drop the interval
and apply the mode-rotation rule; otherwise count down by one. -/
def timer_callback (settings : TimerSettings) (st : TimerState) : TimerState :=
  if st.seconds_remaining ≤ 1 then
    let st1 : TimerState :=
      { st with seconds_remaining := 0, is_active := false, interval := 0 }
    match st1.mode with
    | TimerMode.Work =>
        let current_sessions := st1.sessions_completed + 1
        let st2 : TimerState := { st1 with sessions_completed := current_sessions }
        if current_sessions % settings.sessions_before_long_break = 0 then
          { st2 with mode := TimerMode.LongBreak,
                     seconds_remaining := settings.long_break_minutes * 60 }
        else
          { st2 with mode := TimerMode.ShortBreak,
                     seconds_remaining := settings.short_break_minutes * 60 }
    | TimerMode.ShortBreak =>
        { st1 with mode := TimerMode.Work,
                   seconds_remaining := settings.work_minutes * 60 }
    | TimerMode.LongBreak =>
        { st1 with mode := TimerMode.Work,
                   seconds_remaining := settings.work_minutes * 60 }
  else
    { st with seconds_remaining := st.seconds_remaining - 1 }

/-- `start_timer` (src/main.rs lines 66–129): when inactive, become
active, drop any existing interval, then register a fresh one. -/
def start_timer (st : TimerState) : TimerState :=
  if !st.is_active then
    let st1 : TimerState := { st with is_active := true }
    let st2 : TimerState :=
      if st1.interval ≠ 0 then { st1 with interval := 0 } else st1
    { st2 with interval := 1 }
  else
    st

/-- `pause_timer` (src/main.rs lines 132–137): when active, deactivate
and drop the interval. -/
def pause_timer (st : TimerState) : TimerState :=
  if st.is_active then
    { st with is_active := false, interval := 0 }
  else
    st

/-- `reset_timer` (src/main.rs lines 140–154): unconditionally
deactivate, drop the interval and restore the current mode's full
duration. -/
def reset_timer (settings : TimerSettings) (st : TimerState) : TimerState :=
  let st1 : TimerState := { st with is_active := false, interval := 0 }
  match st1.mode with
  | TimerMode.Work =>
      { st1 with seconds_remaining := settings.work_minutes * 60 }
  | TimerMode.ShortBreak =>
      { st1 with seconds_remaining := settings.short_break_minutes * 60 }
  | TimerMode.LongBreak =>
      { st1 with seconds_remaining := settings.long_break_minutes * 60 }

/-- `change_mode` (src/main.rs lines 157–174): when the requested mode
differs, switch to it, deactivate, drop the interval and load the new
mode's full duration; otherwise do nothing. -/
def change_mode (settings : TimerSettings) (st : TimerState)
    (new_mode : TimerMode) : TimerState :=
  if st.mode ≠ new_mode then
    let st1 : TimerState :=
      { st with mode := new_mode, is_active := false, interval := 0 }
    match new_mode with
    | TimerMode.Work =>
        { st1 with seconds_remaining := settings.work_minutes * 60 }
    | TimerMode.ShortBreak =>
        { st1 with seconds_remaining := settings.short_break_minutes * 60 }
    | TimerMode.LongBreak =>
        { st1 with seconds_remaining := settings.long_break_minutes * 60 }
  else
    st

/-- The scheduler fires `timer_callback` only while a registration is
live; with no live registration a tick instant delivers nothing. -/
def deliver_tick (settings : TimerSettings) (st : TimerState) : TimerState :=
  if st.interval ≠ 0 then timer_callback settings st else st

/-- The commands that can reach the engine: the four UI-driven
operations plus a scheduler tick instant. -/
inductive Cmd where
  | start
  | pause
  | reset
  | changeMode (m : TimerMode)
  | tick
deriving DecidableEq, Repr

/-- One step of the state machine. -/
def step (settings : TimerSettings) (st : TimerState) : Cmd → TimerState
  | Cmd.start => start_timer st
  | Cmd.pause => pause_timer st
  | Cmd.reset => reset_timer settings st
  | Cmd.changeMode m => change_mode settings st m
  | Cmd.tick => deliver_tick settings st

/-- The initial signal values: `Work`, full work duration, inactive,
zero sessions, no interval registered. -/
def initState (settings : TimerSettings) : TimerState :=
  { mode := TimerMode.Work
    seconds_remaining := settings.work_minutes * 60
    is_active := false
    sessions_completed := 0
    interval := 0 }

/-- The state after a sequence of commands from the initial state. -/
def run (settings : TimerSettings) (cmds : List Cmd) : TimerState :=
  List.foldl (step settings) (initState settings) cmds

/-- A state is reachable when some command sequence produces it. -/
def Reachable (settings : TimerSettings) (st : TimerState) : Prop :=
  ∃ cmds : List Cmd, run settings cmds = st

/-! ### Characterizations of the individual operations -/

/-- `start_timer` either does nothing (already active) or sets the active
flag and holds exactly one fresh registration; no other field moves. -/
theorem start_timer_eq (st : TimerState) :
    start_timer st =
      if st.is_active then st
      else { st with is_active := true, interval := 1 } := by
  obtain ⟨m, sec, act, sess, itv⟩ := st
  cases act <;> simp [start_timer]
  split <;> simp

/-- `pause_timer` either does nothing (already paused) or clears the
active flag and the registration; no other field moves. -/
theorem pause_timer_eq (st : TimerState) :
    pause_timer st =
      if st.is_active then { st with is_active := false, interval := 0 }
      else st := by
  obtain ⟨m, sec, act, sess, itv⟩ := st
  cases act <;> simp [pause_timer]

/-- `reset_timer` clears the active flag and the registration and
restores the current mode's full duration. -/
theorem reset_timer_eq (settings : TimerSettings) (st : TimerState) :
    reset_timer settings st =
      { st with is_active := false, interval := 0,
                seconds_remaining := duration settings st.mode * 60 } := by
  obtain ⟨m, sec, act, sess, itv⟩ := st
  cases m <;> simp [reset_timer, duration]

/-- `change_mode` is the identity on the current mode and otherwise
switches mode, deactivates, clears the registration and loads the new
mode's full duration. -/
theorem change_mode_eq (settings : TimerSettings) (st : TimerState)
    (m : TimerMode) :
    change_mode settings st m =
      if st.mode = m then st
      else { st with mode := m, is_active := false, interval := 0,
                     seconds_remaining := duration settings m * 60 } := by
  obtain ⟨m0, sec, act, sess, itv⟩ := st
  by_cases h : m0 = m
  · simp [change_mode, h]
  · cases m <;> simp [change_mode, h, duration]

/-- With more than one second on the clock, the tick callback only
counts the clock down. -/
theorem timer_callback_decrement (settings : TimerSettings)
    (st : TimerState) (h : 1 < st.seconds_remaining) :
    timer_callback settings st =
      { st with seconds_remaining := st.seconds_remaining - 1 } := by
  simp [timer_callback, Nat.not_le.mpr h]

/-- Completion of a `Work` interval: one more session, the interval
dropped, the active flag cleared, and a rotation into `LongBreak` or
`ShortBreak` decided by the session count modulo the threshold. -/
theorem timer_callback_work (settings : TimerSettings) (st : TimerState)
    (hm : st.mode = TimerMode.Work) (hs : st.seconds_remaining ≤ 1) :
    timer_callback settings st =
      if (st.sessions_completed + 1) % settings.sessions_before_long_break = 0 then
        { st with mode := TimerMode.LongBreak,
                  seconds_remaining := settings.long_break_minutes * 60,
                  is_active := false, interval := 0,
                  sessions_completed := st.sessions_completed + 1 }
      else
        { st with mode := TimerMode.ShortBreak,
                  seconds_remaining := settings.short_break_minutes * 60,
                  is_active := false, interval := 0,
                  sessions_completed := st.sessions_completed + 1 } := by
  obtain ⟨m, sec, act, sess, itv⟩ := st
  cases hm
  simp only [timer_callback, if_pos hs]

/-- Completion of a break interval: back to `Work` at its full duration,
interval dropped, active flag cleared, session count untouched. -/
theorem timer_callback_break (settings : TimerSettings) (st : TimerState)
    (hm : st.mode = TimerMode.ShortBreak ∨ st.mode = TimerMode.LongBreak)
    (hs : st.seconds_remaining ≤ 1) :
    timer_callback settings st =
      { st with mode := TimerMode.Work,
                seconds_remaining := settings.work_minutes * 60,
                is_active := false, interval := 0 } := by
  obtain ⟨m, sec, act, sess, itv⟩ := st
  rcases hm with hm | hm <;> cases hm <;> simp [timer_callback, if_pos hs]

/-- `start_timer` never touches the clock. -/
theorem start_timer_seconds (st : TimerState) :
    (start_timer st).seconds_remaining = st.seconds_remaining := by
  rw [start_timer_eq]
  split <;> rfl

/-- `pause_timer` never touches the clock. -/
theorem pause_timer_seconds (st : TimerState) :
    (pause_timer st).seconds_remaining = st.seconds_remaining := by
  rw [pause_timer_eq]
  split <;> rfl

/-! ### Reachability infrastructure -/

/-- An invariant that holds initially and is preserved by every step
holds in every reachable state. -/
theorem run_invariant (settings : TimerSettings) (P : TimerState → Prop)
    (h0 : P (initState settings))
    (hstep : ∀ st c, P st → P (step settings st c)) :
    ∀ cmds : List Cmd, P (run settings cmds) := by
  have main : ∀ (cmds : List Cmd) (st : TimerState), P st →
      P (List.foldl (step settings) st cmds) := by
    intro cmds
    induction cmds with
    | nil => intro st h; simpa using h
    | cons c cs ih => intro st h; exact ih _ (hstep st c h)
  intro cmds
  exact main cmds _ h0

/-- Each configured duration is positive once the three minute settings
are positive. -/
theorem duration_pos (settings : TimerSettings)
    (hw : 0 < settings.work_minutes) (hsb : 0 < settings.short_break_minutes)
    (hlb : 0 < settings.long_break_minutes) (m : TimerMode) :
    0 < duration settings m * 60 := by
  cases m <;> simp [duration] <;> omega

/-- One step keeps the clock within the current mode's full duration. -/
theorem step_in_range (settings : TimerSettings) (st : TimerState) (c : Cmd)
    (h : st.seconds_remaining ≤ duration settings st.mode * 60) :
    (step settings st c).seconds_remaining ≤
      duration settings (step settings st c).mode * 60 := by
  cases c with
  | start =>
      simp only [step]
      rw [start_timer_eq]
      split <;> simpa
  | pause =>
      simp only [step]
      rw [pause_timer_eq]
      split <;> simpa
  | reset =>
      simp only [step]
      rw [reset_timer_eq]
  | changeMode m =>
      simp only [step]
      rw [change_mode_eq]
      split
      · exact h
      · simp
  | tick =>
      simp only [step]
      unfold deliver_tick
      split
      · by_cases hs : st.seconds_remaining ≤ 1
        · cases hm : st.mode with
          | Work =>
              rw [timer_callback_work settings st hm hs]
              split <;> simp [duration]
          | ShortBreak =>
              rw [timer_callback_break settings st (Or.inl hm) hs]
              simp [duration]
          | LongBreak =>
              rw [timer_callback_break settings st (Or.inr hm) hs]
              simp [duration]
        · rw [timer_callback_decrement settings st (Nat.not_le.mp hs)]
          simp only
          omega
      · exact h

/-- One step keeps the registration count equal to the active flag. -/
theorem step_interval_sync (settings : TimerSettings) (st : TimerState)
    (c : Cmd) (h : st.interval = if st.is_active then 1 else 0) :
    (step settings st c).interval =
      if (step settings st c).is_active then 1 else 0 := by
  cases c with
  | start =>
      simp only [step, start_timer_eq]
      split <;> simp_all
  | pause =>
      simp only [step, pause_timer_eq]
      split <;> simp_all
  | reset =>
      simp only [step, reset_timer_eq]
      simp
  | changeMode m =>
      simp only [step, change_mode_eq]
      split <;> simp_all
  | tick =>
      simp only [step]
      unfold deliver_tick
      split
      · by_cases hs : st.seconds_remaining ≤ 1
        · cases hm : st.mode with
          | Work =>
              simp only [timer_callback_work settings st hm hs]
              split <;> simp
          | ShortBreak =>
              simp only [timer_callback_break settings st (Or.inl hm) hs]
              simp
          | LongBreak =>
              simp only [timer_callback_break settings st (Or.inr hm) hs]
              simp
        · simp only [timer_callback_decrement settings st (Nat.not_le.mp hs)]
          simpa using h
      · exact h

/-- One step keeps the clock strictly positive when the three minute
settings are positive. -/
theorem step_pos (settings : TimerSettings) (st : TimerState) (c : Cmd)
    (hw : 0 < settings.work_minutes) (hsb : 0 < settings.short_break_minutes)
    (hlb : 0 < settings.long_break_minutes)
    (h : 0 < st.seconds_remaining) :
    0 < (step settings st c).seconds_remaining := by
  cases c with
  | start => simpa [step, start_timer_seconds] using h
  | pause => simpa [step, pause_timer_seconds] using h
  | reset =>
      simp only [step]
      rw [reset_timer_eq]
      simpa using duration_pos settings hw hsb hlb st.mode
  | changeMode m =>
      simp only [step]
      rw [change_mode_eq]
      split
      · exact h
      · simpa using duration_pos settings hw hsb hlb m
  | tick =>
      simp only [step]
      unfold deliver_tick
      split
      · by_cases hs : st.seconds_remaining ≤ 1
        · cases hm : st.mode with
          | Work =>
              rw [timer_callback_work settings st hm hs]
              split <;> simp <;> omega
          | ShortBreak =>
              rw [timer_callback_break settings st (Or.inl hm) hs]
              simp
              omega
          | LongBreak =>
              rw [timer_callback_break settings st (Or.inr hm) hs]
              simp
              omega
        · rw [timer_callback_decrement settings st (Nat.not_le.mp hs)]
          simp only
          omega
      · exact h

/-- While more ticks remain than will be delivered, every delivered tick
lands in the countdown branch: `n` ticks subtract exactly `n` seconds
and move nothing else. -/
theorem deliver_tick_iterate (settings : TimerSettings) :
    ∀ (n : Nat) (st : TimerState), st.interval = 1 →
      n < st.seconds_remaining →
      (deliver_tick settings)^[n] st =
        { st with seconds_remaining := st.seconds_remaining - n } := by
  intro n
  induction n with
  | zero => intro st _ _; simp
  | succ k ih =>
      intro st hitv hn
      have h1 : 1 < st.seconds_remaining := by omega
      have hlive : st.interval ≠ 0 := by omega
      have hstep : deliver_tick settings st =
          { st with seconds_remaining := st.seconds_remaining - 1 } := by
        unfold deliver_tick
        rw [if_pos hlive]
        exact timer_callback_decrement settings st h1
      rw [Function.iterate_succ_apply, hstep]
      rw [ih { st with seconds_remaining := st.seconds_remaining - 1 }
        (by simpa using hitv) (by simp only; omega)]
      simp only
      congr 1
      omega

/-! ### Concrete states used by witnesses and the counterexample -/

/-- An active `Work` state one second from completion, with a live
registration and no completed sessions. -/
def nearDoneWork : TimerState :=
  { mode := TimerMode.Work
    seconds_remaining := 1
    is_active := true
    sessions_completed := 0
    interval := 1 }

/-- An active `ShortBreak` state one second from completion. -/
def nearDoneBreak : TimerState :=
  { mode := TimerMode.ShortBreak
    seconds_remaining := 1
    is_active := true
    sessions_completed := 3
    interval := 1 }

/-- An active `Work` state at the full default duration. -/
def midWork : TimerState :=
  { mode := TimerMode.Work
    seconds_remaining := 1500
    is_active := true
    sessions_completed := 0
    interval := 1 }

/-! ### The claims -/

/-- C1: in any state in `Work` mode with at most one second remaining,
the tick callback deactivates the timer and increments the session count
by exactly one; when the incremented count is a multiple of
`sessions_before_long_break` (the code's `current_sessions % threshold
== 0` test), the mode becomes `LongBreak` with the long-break duration
in seconds, otherwise `ShortBreak` with the short-break duration. -/
theorem work_completion_claim (settings : TimerSettings) (st : TimerState)
    (hm : st.mode = TimerMode.Work) (hs : st.seconds_remaining ≤ 1) :
    (timer_callback settings st).is_active = false ∧
    (timer_callback settings st).sessions_completed =
      st.sessions_completed + 1 ∧
    (if (st.sessions_completed + 1) % settings.sessions_before_long_break = 0
     then
      (timer_callback settings st).mode = TimerMode.LongBreak ∧
      (timer_callback settings st).seconds_remaining =
        settings.long_break_minutes * 60
     else
      (timer_callback settings st).mode = TimerMode.ShortBreak ∧
      (timer_callback settings st).seconds_remaining =
        settings.short_break_minutes * 60) := by
  by_cases hc :
      (st.sessions_completed + 1) % settings.sessions_before_long_break = 0 <;>
    simp only [timer_callback_work settings st hm hs, hc, if_pos, if_neg,
      if_true, if_false] <;> simp [hc]

/-- Witness for C1 at the default settings: completing the first work
session from one remaining second yields an inactive `ShortBreak` state
with 300 seconds and one completed session. -/
theorem work_completion_claim_witness :
    (timer_callback defaultSettings nearDoneWork).is_active = false ∧
    (timer_callback defaultSettings nearDoneWork).sessions_completed = 1 ∧
    (timer_callback defaultSettings nearDoneWork).mode =
      TimerMode.ShortBreak ∧
    (timer_callback defaultSettings nearDoneWork).seconds_remaining = 300 := by
  have h := work_completion_claim defaultSettings nearDoneWork rfl (by decide)
  have hc : (nearDoneWork.sessions_completed + 1) %
      defaultSettings.sessions_before_long_break ≠ 0 := by decide
  rw [if_neg hc] at h
  exact ⟨h.1, h.2.1, h.2.2.1, h.2.2.2⟩

/-- C2: in any state in `ShortBreak` or `LongBreak` mode with at most
one second remaining, the tick callback returns to `Work` at the full
work duration, clears the active flag and the registration, and leaves
the session count unchanged; it does not re-arm the timer. -/
theorem break_completion_claim (settings : TimerSettings) (st : TimerState)
    (hm : st.mode = TimerMode.ShortBreak ∨ st.mode = TimerMode.LongBreak)
    (hs : st.seconds_remaining ≤ 1) :
    timer_callback settings st =
      { st with mode := TimerMode.Work,
                seconds_remaining := settings.work_minutes * 60,
                is_active := false, interval := 0 } :=
  timer_callback_break settings st hm hs

/-- Witness for C2 at the default settings: completing a short break
from one remaining second yields an inactive `Work` state with 1500
seconds and the session count untouched. -/
theorem break_completion_claim_witness :
    timer_callback defaultSettings nearDoneBreak =
      { mode := TimerMode.Work
        seconds_remaining := 1500
        is_active := false
        sessions_completed := 3
        interval := 0 } := by
  have h :=
    break_completion_claim defaultSettings nearDoneBreak (Or.inl rfl)
      (by decide)
  simpa [nearDoneBreak, defaultSettings] using h

/-- C3 as stated is false at the completion tick: at an active `Work`
state with one second left and a live registration, the single delivered
tick is delivered while active, yet the clock ends at the short-break
duration 300, not at `1 - min 1 1 = 0` as the decrease-by-`min` formula
predicts. -/
theorem tick_countdown_counterexample :
    nearDoneWork.is_active = true ∧
    (deliver_tick defaultSettings nearDoneWork).seconds_remaining = 300 ∧
    ¬ ((deliver_tick defaultSettings nearDoneWork).seconds_remaining =
        nearDoneWork.seconds_remaining -
          min 1 nearDoneWork.seconds_remaining) := by
  decide

/-- C3 (amended): for an active state with a live registration,
delivering `n` ticks with `n` strictly below `secondsRemaining`
subtracts exactly `n` seconds and changes nothing else (so the clock
never goes negative — it stays a natural number and here stays
positive); in particular a single tick with more than one second left
decrements by exactly one and changes nothing else.  Delivering the
`secondsRemaining`-th tick instead completes the interval and loads the
next mode's full duration. -/
theorem tick_countdown_claim (settings : TimerSettings) (st : TimerState)
    (_hact : st.is_active = true) (hitv : st.interval = 1) (n : Nat)
    (hn : n < st.seconds_remaining) :
    ((deliver_tick settings)^[n] st =
      { st with seconds_remaining := st.seconds_remaining - n }) ∧
    (1 < st.seconds_remaining →
      timer_callback settings st =
        { st with seconds_remaining := st.seconds_remaining - 1 }) :=
  ⟨deliver_tick_iterate settings n st hitv hn,
   fun h1 => timer_callback_decrement settings st h1⟩

/-- Witness for the amended C3: two ticks on a fresh active default work
state take the clock from 1500 to 1498 and move nothing else, and one
callback takes it to 1499. -/
theorem tick_countdown_claim_witness :
    (deliver_tick defaultSettings)^[2] midWork =
      { mode := TimerMode.Work
        seconds_remaining := 1498
        is_active := true
        sessions_completed := 0
        interval := 1 } ∧
    timer_callback defaultSettings midWork =
      { mode := TimerMode.Work
        seconds_remaining := 1499
        is_active := true
        sessions_completed := 0
        interval := 1 } := by
  have h := tick_countdown_claim defaultSettings midWork rfl rfl 2 (by decide)
  exact ⟨by simpa [midWork] using h.1, by simpa [midWork] using h.2 (by decide)⟩

/-- C4: in every state reachable from the initial state by any command
sequence, the clock lies between 0 and the current mode's configured
minutes times 60. -/
theorem seconds_within_range_claim (settings : TimerSettings)
    (cmds : List Cmd) :
    0 ≤ (run settings cmds).seconds_remaining ∧
    (run settings cmds).seconds_remaining ≤
      duration settings (run settings cmds).mode * 60 :=
  ⟨Nat.zero_le _,
   run_invariant settings
     (fun st => st.seconds_remaining ≤ duration settings st.mode * 60)
     (by simp [initState, duration])
     (fun st c h => step_in_range settings st c h) cmds⟩

/-- C5: `reset_timer` always deactivates and restores the current
mode's full duration, and never changes the mode or the session count. -/
theorem reset_claim (settings : TimerSettings) (st : TimerState) :
    (reset_timer settings st).is_active = false ∧
    (reset_timer settings st).seconds_remaining =
      duration settings st.mode * 60 ∧
    (reset_timer settings st).mode = st.mode ∧
    (reset_timer settings st).sessions_completed =
      st.sessions_completed := by
  rw [reset_timer_eq]
  simp

/-- C6: `change_mode` with the current mode is a strict no-op; with a
different mode it switches to it, deactivates, loads that mode's full
duration and leaves the session count untouched. -/
theorem change_mode_claim (settings : TimerSettings) (st : TimerState)
    (m : TimerMode) :
    change_mode settings st m =
      if st.mode = m then st
      else { st with mode := m, is_active := false, interval := 0,
                     seconds_remaining := duration settings m * 60 } :=
  change_mode_eq settings st m

/-- C7: `pause_timer` is a no-op when inactive and otherwise only clears
the active flag and the registration, preserving the clock exactly; a
pause immediately followed by a start resumes with the clock at its
value from pause time. -/
theorem pause_resume_claim (st : TimerState) :
    (pause_timer st =
      if st.is_active then { st with is_active := false, interval := 0 }
      else st) ∧
    (start_timer (pause_timer st)).seconds_remaining =
      st.seconds_remaining := by
  refine ⟨pause_timer_eq st, ?_⟩
  rw [start_timer_seconds, pause_timer_seconds]

/-- C8: `start_timer` is idempotent — when already active it is a
no-op — and from an inactive state it only raises the active flag and
installs one registration, altering neither the clock, the mode nor the
session count. -/
theorem start_claim (st : TimerState) :
    (start_timer (start_timer st) = start_timer st) ∧
    (start_timer st =
      if st.is_active then st
      else { st with is_active := true, interval := 1 }) := by
  refine ⟨?_, start_timer_eq st⟩
  by_cases h : st.is_active <;> simp [start_timer_eq, h]

/-- C9: in every reachable state the registration count equals one
exactly when the timer is active and zero otherwise — so a live interval
exists if and only if `is_active`, at most one registration is ever
live, and every operation that deactivates also clears the
registration. -/
theorem interval_sync_claim (settings : TimerSettings) (cmds : List Cmd) :
    ((run settings cmds).interval =
      if (run settings cmds).is_active then 1 else 0) ∧
    (run settings cmds).interval ≤ 1 := by
  have h :=
    run_invariant settings
      (fun st => st.interval = if st.is_active then 1 else 0)
      (by simp [initState])
      (fun st c hp => step_interval_sync settings st c hp) cmds
  refine ⟨h, ?_⟩
  rw [h]
  split <;> omega

/-- C10: with all four settings strictly positive, every reachable
state keeps a strictly positive clock — the `0` written at the start of
the completion path is always overwritten by the next mode's full
duration before the callback returns, so a resting state with a zero
clock is unreachable. -/
theorem seconds_positive_claim (settings : TimerSettings)
    (hw : 0 < settings.work_minutes)
    (hsb : 0 < settings.short_break_minutes)
    (hlb : 0 < settings.long_break_minutes)
    (_hsl : 0 < settings.sessions_before_long_break)
    (cmds : List Cmd) :
    0 < (run settings cmds).seconds_remaining :=
  run_invariant settings (fun st => 0 < st.seconds_remaining)
    (by simp [initState]; omega)
    (fun st c h => step_pos settings st c hw hsb hlb h) cmds

/-- Witness for C10 at the default settings: after a start and a tick
the clock is still positive. -/
theorem seconds_positive_claim_witness :
    0 < (run defaultSettings [Cmd.start, Cmd.tick]).seconds_remaining :=
  seconds_positive_claim defaultSettings (by decide) (by decide) (by decide)
    (by decide) [Cmd.start, Cmd.tick]

end Pomodoro
